import Mathlib

/-!
Shallow embedding of the 2D frame-index animation playback core of the
`bevy_trickfilm` repository, with theorems settling the specification
claims about it.

Rust `f32` values are modelled as rationals (`ℚ`), so float arithmetic is
idealised as exact arithmetic; `u32` counters are modelled as `ℕ`.
-/

set_option allowUnsafeReducibility true in
attribute [semireducible] Rat.mul Rat.add Rat.sub Rat.inv Rat.ofScientific

/-- Absolute value on rationals, written so that the kernel can evaluate it;
equal to `|q|` by `ratAbs_eq_abs`. -/
def ratAbs (q : ℚ) : ℚ := if q < 0 then -q else q

/-- Floor of a rational as Euclidean division of numerator by denominator,
written so that the kernel can evaluate it; equal to `⌊q⌋` by `ratFloor_eq_floor`. -/
def ratFloor (q : ℚ) : ℤ := q.num / q.den

/-- Truncation of a rational toward zero, as Rust float-to-integer casts and
the float `%` operator truncate toward zero. -/
def ratTrunc (q : ℚ) : ℤ := Int.tdiv q.num q.den

/-- Remainder as computed by the Rust `%` operator on floats:
`x - d * trunc(x / d)`, with the sign of the dividend. -/
def rustRem (x d : ℚ) : ℚ := x - d * (ratTrunc (x / d) : ℚ)

/-- Repeat behaviour of a playing animation, from `bevy::animation::RepeatAnimation`.
The Rust `Default` variant is `Never`. -/
inductive RepeatAnimation where
  | Never : RepeatAnimation
  | Count : ℕ → RepeatAnimation
  | Forever : RepeatAnimation
deriving DecidableEq

/-- Playback cursor state, from `PlayingAnimation2D` in `src/animation/mod.rs`.
The asset handle is modelled as a numeric clip identifier. -/
structure PlayingAnimation2D where
  repeat_mode : RepeatAnimation
  speed : ℚ
  elapsed : ℚ
  duration : Option ℚ
  last_frame : Option ℕ
  frame : Option ℕ
  seek_time : ℚ
  animation_clip : ℕ
  completions : ℕ
  completions_this_update : ℕ
deriving DecidableEq

/-- Rust `Default` for `PlayingAnimation2D` (`src/animation/mod.rs` lines 130-145). -/
def PlayingAnimation2D.default : PlayingAnimation2D where
  repeat_mode := RepeatAnimation.Never
  speed := 1
  elapsed := 0
  duration := none
  last_frame := none
  frame := none
  seek_time := 0
  animation_clip := 0
  completions := 0
  completions_this_update := 0

/-- Finished check per repeat policy (`src/animation/mod.rs` lines 152-158). -/
def PlayingAnimation2D.finished (a : PlayingAnimation2D) : Bool :=
  match a.repeat_mode with
  | RepeatAnimation.Forever => false
  | RepeatAnimation.Never => decide (a.completions ≥ 1)
  | RepeatAnimation.Count n => decide (a.completions ≥ n)

/-- Cursor update, from `PlayingAnimation2D::update` in `src/animation/mod.rs`
lines 181-209. The Rust `as u32` cast of the non-negative quotient is modelled
as `Int.toNat` of the floor. -/
def PlayingAnimation2D.update (a : PlayingAnimation2D) (delta clip_duration : ℚ) :
    PlayingAnimation2D :=
  let a0 := { a with completions_this_update := 0 }
  if a0.finished then a0
  else
    let a1 := { a0 with
      elapsed := a0.elapsed + delta
      seek_time := a0.seek_time + delta * a0.speed }
    let quotient : ℕ := (ratFloor (ratAbs a1.seek_time / clip_duration)).toNat
    let ctu : ℕ := quotient + (if a1.seek_time < 0 then 1 else 0)
    let a2 := { a1 with
      completions_this_update := ctu
      completions := a1.completions + ctu }
    let modulo : ℚ := rustRem (ratAbs a2.seek_time) clip_duration
    let a3 :=
      if a2.seek_time ≥ clip_duration then { a2 with seek_time := modulo }
      else if a2.seek_time < 0 then { a2 with seek_time := clip_duration - modulo }
      else a2
    if a3.finished then { a3 with seek_time := clip_duration } else a3

/-- Reset to the initial state (`PlayingAnimation2D::replay`,
`src/animation/mod.rs` lines 212-217). -/
def PlayingAnimation2D.replay (a : PlayingAnimation2D) : PlayingAnimation2D :=
  { a with
    completions_this_update := 0
    completions := 0
    elapsed := 0
    seek_time := 0 }

/-- Player component, from `AnimationPlayer2D` in `src/animation/mod.rs`. -/
structure AnimationPlayer2D where
  paused : Bool
  animation : PlayingAnimation2D
deriving DecidableEq

/-- Rust `Default` for `AnimationPlayer2D`. -/
def AnimationPlayer2D.default : AnimationPlayer2D where
  paused := false
  animation := PlayingAnimation2D.default

/-- Helper of `start` and `play_continue` (`src/animation/mod.rs` lines 250-263). -/
def AnimationPlayer2D.start_from_time (p : AnimationPlayer2D) (handle : ℕ)
    (elapsed seek_time : ℚ) : AnimationPlayer2D :=
  { p with animation := { PlayingAnimation2D.default with
      animation_clip := handle
      elapsed := elapsed
      seek_time := seek_time } }

/-- Start playing an animation, resetting state (`src/animation/mod.rs` lines 266-268). -/
def AnimationPlayer2D.start (p : AnimationPlayer2D) (handle : ℕ) : AnimationPlayer2D :=
  p.start_from_time handle 0 0

/-- Start playing unless the same clip is already playing and not paused
(`src/animation/mod.rs` lines 271-276). -/
def AnimationPlayer2D.play (p : AnimationPlayer2D) (handle : ℕ) : AnimationPlayer2D :=
  if p.animation.animation_clip ≠ handle ∨ p.paused then p.start handle else p

/-- Current frame accessor (`src/animation/mod.rs` lines 401-403):
`self.animation.frame.unwrap_or(0)`. -/
def AnimationPlayer2D.frame (p : AnimationPlayer2D) : ℕ :=
  p.animation.frame.getD 0

/-- Seek time accessor (`src/animation/mod.rs` lines 406-408). -/
def AnimationPlayer2D.seek_time (p : AnimationPlayer2D) : ℚ :=
  p.animation.seek_time

/-- Seek to a specific time (`src/animation/mod.rs` lines 411-414); the value is
stored as given, without clamping. -/
def AnimationPlayer2D.seek_to (p : AnimationPlayer2D) (seek_time : ℚ) : AnimationPlayer2D :=
  { p with animation := { p.animation with seek_time := seek_time } }

/-- Replay on the player (`src/animation/mod.rs` lines 417-419). -/
def AnimationPlayer2D.replay (p : AnimationPlayer2D) : AnimationPlayer2D :=
  { p with animation := p.animation.replay }

/-- Keyframes, either an ordered list or a range of texture atlas indices
(`Keyframes`, `src/asset/mod.rs` lines 36-41). -/
inductive Keyframes where
  | KeyframesVec : List ℕ → Keyframes
  | KeyframesRange : ℕ → ℕ → Keyframes
deriving DecidableEq

/-- Number of keyframes (`Keyframes::len`, `src/asset/mod.rs` lines 55-60). -/
def Keyframes.len : Keyframes → ℕ
  | Keyframes.KeyframesVec vec => vec.length
  | Keyframes.KeyframesRange start stop => stop - start

/-- Typed clip construction errors (`AnimationClip2DError`,
`src/asset/mod.rs` lines 103-116). -/
inductive AnimationClip2DError where
  | SizeMismatch : ℕ → ℕ → AnimationClip2DError
  | Empty : AnimationClip2DError
  | InsufficientDuration : ℚ → ℚ → AnimationClip2DError
  | InvalidFrame : ℕ → ℕ → AnimationClip2DError
deriving DecidableEq

/-- Validated clip data (`AnimationClip2D`, `src/asset/mod.rs` lines 90-98).
Event payloads (`Box<dyn Reflect>` in Rust) are opaque, modelled as numeric
payload identifiers; the events `HashMap` is modelled as an association list. -/
structure AnimationClip2D where
  keyframe_timestamps : List ℚ
  keyframes : Keyframes
  duration : ℚ
  events : List (ℕ × List ℕ)
deriving DecidableEq

/-- Maximum of a list of timestamps, as the Rust
`iter().max_by(partial_cmp)` over a nonempty list
(`src/asset/mod.rs` lines 149-155). -/
def maxTimestamp (l : List ℚ) : ℚ :=
  l.foldl (fun a b => if a ≤ b then b else a) (l.headD 0)

/-- Clip construction and validation (`AnimationClip2D::new`,
`src/asset/mod.rs` lines 120-178). -/
def AnimationClip2D.new (keyframe_timestamps : Option (List ℚ)) (keyframes : Keyframes)
    (duration : ℚ) (events : Option (List (ℕ × List ℕ))) :
    Except AnimationClip2DError AnimationClip2D :=
  let keyframes_len := keyframes.len
  let kts := keyframe_timestamps.getD
    ((List.range keyframes_len).map (fun i => ((i : ℚ) / (keyframes_len : ℚ)) * duration))
  let keyframe_timestamps_len := kts.length
  if keyframe_timestamps_len ≠ keyframes_len then
    Except.error (AnimationClip2DError.SizeMismatch keyframe_timestamps_len keyframes_len)
  else if keyframe_timestamps_len = 0 then
    Except.error AnimationClip2DError.Empty
  else
    let keyframe_timestamps_max := maxTimestamp kts
    if duration < keyframe_timestamps_max then
      Except.error
        (AnimationClip2DError.InsufficientDuration keyframe_timestamps_max duration)
    else
      let ev := events.getD []
      let max_event_frame := (ev.map Prod.fst).foldl Nat.max 0
      if max_event_frame > keyframes_len then
        Except.error (AnimationClip2DError.InvalidFrame max_event_frame keyframes_len)
      else
        Except.ok
          { keyframe_timestamps := kts
            keyframes := keyframes
            duration := duration
            events := ev }

/-- Loop of the Rust core `slice::binary_search_by` with the comparator
`probe.partial_cmp(&elapsed)`; `size`, `left` and `right` evolve exactly as in
the Rust loop. The explicit fuel only bounds the recursion: the loop strictly
decreases `size`, so fuel `l.length + 1` is never exhausted. -/
def binarySearchGo (l : List ℚ) (target : ℚ) : ℕ → ℕ → ℕ → ℕ → Except ℕ ℕ
  | _, left, _, 0 => Except.error left
  | size, left, right, fuel + 1 =>
    if left < right then
      let mid := left + size / 2
      let probe := l.getD mid 0
      if probe < target then
        binarySearchGo l target (right - (mid + 1)) (mid + 1) right fuel
      else if target < probe then
        binarySearchGo l target (mid - left) left mid fuel
      else Except.ok mid
    else Except.error left

/-- Rust `slice::binary_search_by` on the timestamp table: `Except.ok i` is an
exact match at index `i`, `Except.error i` gives the insertion point. -/
def binary_search_by (l : List ℚ) (target : ℚ) : Except ℕ ℕ :=
  binarySearchGo l target l.length 0 l.length (l.length + 1)

/-- Frame resolution `match` of `apply_animation_player_spritesheet`
(`src/animation/animation_spritesheet.rs` lines 82-91); the `match` in
`apply_animation_player_sprite` (`src/animation/animation_sprite.rs` lines
65-74) is textually identical. `none` models the Rust early `return` arms that
leave the displayed frame untouched; the guards are kept in source order. -/
def resolveFrameIndex (keyframe_timestamps : List ℚ) (elapsed : ℚ) : Option ℕ :=
  match binary_search_by keyframe_timestamps elapsed with
  | Except.ok n =>
    if n ≥ keyframe_timestamps.length - 1 then none
    else some n
  | Except.error n =>
    if n = 0 then none
    else if n > keyframe_timestamps.length then none
    else some (n - 1)

/-- Event collection for one animation player
(`collect_events`, `src/animation/event.rs` lines 86-107), restricted to a
single query entry. The typed-event cache maps a clip identifier to a map from
frame index to the payload list; `setTarget` is the `AnimationEvent::set_target`
call on each cloned payload, and `entity` the owning instance identity. -/
def collect_events {α : Type} (setTarget : α → ℕ → α) (entity : ℕ)
    (cache : List (ℕ × List (ℕ × List α))) (player : AnimationPlayer2D) : List α :=
  match cache.lookup player.animation.animation_clip with
  | none => []
  | some event_map =>
    if player.animation.last_frame ≠ player.animation.frame then
      match event_map.lookup player.frame with
      | some animation_events => animation_events.map (fun e => setTarget e entity)
      | none => []
    else []

/-- Modelled from the spec: the per-tick frame bookkeeping of the frame-advance
system (the data flow of section 2 and section 4.3; the current-era system
writing `last_frame`/`frame` is not present under `src/`): each tick stores the
previously resolved frame in `last_frame` and the newly resolved frame in
`frame` before event collection runs. -/
def tickFrames (p : AnimationPlayer2D) (f : Option ℕ) : AnimationPlayer2D :=
  { p with animation := { p.animation with
      last_frame := p.animation.frame
      frame := f } }

/-- Modelled from the spec: the event payload lists collected on each of a
sequence of consecutive ticks whose resolved frames are given, threading the
`tickFrames` bookkeeping through `collect_events`. -/
def emissionsAlong {α : Type} (setTarget : α → ℕ → α) (entity : ℕ)
    (cache : List (ℕ × List (ℕ × List α))) :
    AnimationPlayer2D → List (Option ℕ) → List (List α)
  | _, [] => []
  | p, f :: fs =>
    collect_events setTarget entity cache (tickFrames p f)
      :: emissionsAlong setTarget entity cache (tickFrames p f) fs

theorem ratAbs_eq_abs (q : ℚ) : ratAbs q = |q| := by
  unfold ratAbs
  split
  · exact (abs_of_neg (by assumption)).symm
  · exact (abs_of_nonneg (le_of_not_lt (by assumption))).symm

theorem ratFloor_eq_floor (q : ℚ) : ratFloor q = ⌊q⌋ := by
  rw [Rat.floor_def]
  rfl

theorem finished_set_ctu (a : PlayingAnimation2D) (x : ℕ) :
    ({ a with completions_this_update := x } : PlayingAnimation2D).finished
      = a.finished := rfl

example : PlayingAnimation2D.default.finished = false := rfl

example : (PlayingAnimation2D.default.update 3 1).completions = 3 := by decide

example : (PlayingAnimation2D.default.update 3 1).seek_time = 1 := by decide

example : resolveFrameIndex [0] 0 = none := by decide

example : resolveFrameIndex [0, 1] 0 = some 0 := by decide

example : resolveFrameIndex [0, 1] 2 = some 1 := by decide

example : binary_search_by [0, 1] 2 = Except.error 2 := by rfl

example : resolveFrameIndex [0, (2:ℚ)/10, (4:ℚ)/10] (25/100) = some 1 := by decide

example : AnimationClip2D.new (some [0]) (Keyframes.KeyframesVec [0]) 0 none
    = Except.ok ⟨[0], Keyframes.KeyframesVec [0], 0, []⟩ := by rfl

theorem update_not_finished (a : PlayingAnimation2D) (delta d : ℚ)
    (h : a.finished = false) :
    (a.update delta d).completions_this_update
        = (ratFloor (ratAbs (a.seek_time + delta * a.speed) / d)).toNat
          + (if a.seek_time + delta * a.speed < 0 then 1 else 0)
    ∧ (a.update delta d).completions
        = a.completions + (a.update delta d).completions_this_update
    ∧ (a.update delta d).elapsed = a.elapsed + delta
    ∧ (a.update delta d).repeat_mode = a.repeat_mode
    ∧ (a.update delta d).speed = a.speed := by
  unfold PlayingAnimation2D.update
  simp only [finished_set_ctu, h, Bool.false_eq_true, if_false]
  refine ⟨?_, ?_, ?_, ?_, ?_⟩ <;>
    simp [apply_ite PlayingAnimation2D.completions_this_update,
          apply_ite PlayingAnimation2D.completions,
          apply_ite PlayingAnimation2D.elapsed,
          apply_ite PlayingAnimation2D.repeat_mode,
          apply_ite PlayingAnimation2D.speed]

/-- C3: for an update of an unfinished cursor with positive clip duration,
letting s be the old seek time plus delta times speed, the call sets
completions_this_update to the floor of abs(s) / clip_duration, plus one
exactly when s is negative, and increases the cumulative completions counter
by exactly that amount. -/
theorem update_completion_counters (a : PlayingAnimation2D) (delta clip_duration : ℚ)
    (hfin : a.finished = false) (hd : 0 < clip_duration) :
    (a.update delta clip_duration).completions_this_update
        = (⌊|a.seek_time + delta * a.speed| / clip_duration⌋).toNat
          + (if a.seek_time + delta * a.speed < 0 then 1 else 0)
    ∧ (a.update delta clip_duration).completions
        = a.completions + (a.update delta clip_duration).completions_this_update := by
  have h := update_not_finished a delta clip_duration hfin
  refine ⟨?_, h.2.1⟩
  rw [h.1, ratFloor_eq_floor, ratAbs_eq_abs]

theorem update_completion_counters_witness :
    PlayingAnimation2D.default.finished = false
    ∧ (0 : ℚ) < 1
    ∧ ((PlayingAnimation2D.default.update (5/2) 1).completions_this_update
          = (⌊|PlayingAnimation2D.default.seek_time
                + 5/2 * PlayingAnimation2D.default.speed| / 1⌋).toNat
            + (if PlayingAnimation2D.default.seek_time
                + 5/2 * PlayingAnimation2D.default.speed < 0 then 1 else 0)
        ∧ (PlayingAnimation2D.default.update (5/2) 1).completions
          = PlayingAnimation2D.default.completions
            + (PlayingAnimation2D.default.update (5/2) 1).completions_this_update)
    ∧ (PlayingAnimation2D.default.update (5/2) 1).completions_this_update = 2 :=
  ⟨rfl, by norm_num,
    update_completion_counters PlayingAnimation2D.default (5/2) 1 rfl (by norm_num),
    by decide⟩

theorem finished_set_seek (a : PlayingAnimation2D) (x : ℚ) :
    ({ a with seek_time := x } : PlayingAnimation2D).finished = a.finished := rfl

theorem seek_clamp_of_finished (b : PlayingAnimation2D) (d : ℚ)
    (h : (if b.finished then { b with seek_time := d } else b).finished = true) :
    (if b.finished then { b with seek_time := d } else b).seek_time = d := by
  by_cases hb : b.finished
  · simp [hb]
  · rw [if_neg hb] at h
    exact absurd h hb

/-- C4: an update of a cursor that is not yet finished, with a non-Forever
repeat policy, that ends in the finished state forces the terminal seek time
to be exactly the clip duration. -/
theorem update_forces_terminal_seek_time (a : PlayingAnimation2D) (delta clip_duration : ℚ)
    (hfin : a.finished = false)
    (hrep : a.repeat_mode ≠ RepeatAnimation.Forever)
    (hafter : (a.update delta clip_duration).finished = true) :
    (a.update delta clip_duration).seek_time = clip_duration := by
  unfold PlayingAnimation2D.update at hafter ⊢
  simp only [finished_set_ctu, hfin, Bool.false_eq_true, if_false] at hafter ⊢
  exact seek_clamp_of_finished _ _ hafter

theorem update_forces_terminal_seek_time_witness :
    PlayingAnimation2D.default.finished = false
    ∧ PlayingAnimation2D.default.repeat_mode ≠ RepeatAnimation.Forever
    ∧ (PlayingAnimation2D.default.update (7/2) 1).finished = true
    ∧ (PlayingAnimation2D.default.update (7/2) 1).seek_time = 1 :=
  ⟨rfl, by decide, by decide,
    update_forces_terminal_seek_time PlayingAnimation2D.default (7/2) 1 rfl
      (by decide) (by decide)⟩

/-- C5: an update of a cursor that is already finished leaves elapsed,
seek_time and the cumulative completions counter unchanged and only resets
completions_this_update to zero, for every delta and clip duration. -/
theorem update_of_finished_frozen (a : PlayingAnimation2D) (delta clip_duration : ℚ)
    (hfin : a.finished = true) :
    (a.update delta clip_duration).elapsed = a.elapsed
    ∧ (a.update delta clip_duration).seek_time = a.seek_time
    ∧ (a.update delta clip_duration).completions = a.completions
    ∧ (a.update delta clip_duration).completions_this_update = 0 := by
  unfold PlayingAnimation2D.update
  simp [finished_set_ctu, hfin]

theorem update_of_finished_frozen_witness :
    ({ PlayingAnimation2D.default with completions := 1 }
        : PlayingAnimation2D).finished = true
    ∧ (({ PlayingAnimation2D.default with completions := 1 }
        : PlayingAnimation2D).update 7 2).elapsed
        = ({ PlayingAnimation2D.default with completions := 1 }
            : PlayingAnimation2D).elapsed
    ∧ (({ PlayingAnimation2D.default with completions := 1 }
        : PlayingAnimation2D).update 7 2).seek_time
        = ({ PlayingAnimation2D.default with completions := 1 }
            : PlayingAnimation2D).seek_time
    ∧ (({ PlayingAnimation2D.default with completions := 1 }
        : PlayingAnimation2D).update 7 2).completions
        = ({ PlayingAnimation2D.default with completions := 1 }
            : PlayingAnimation2D).completions
    ∧ (({ PlayingAnimation2D.default with completions := 1 }
        : PlayingAnimation2D).update 7 2).completions_this_update = 0 := by
  refine ⟨rfl, ?_⟩
  exact update_of_finished_frozen
    { PlayingAnimation2D.default with completions := 1 } 7 2 rfl

/-- C1 counter-evidence: for a single-keyframe clip (N = 1) the binary search
finds the exact match at position 0, which is also the last index, and the
first arm of the resolution `match` returns with no frame update (`none`)
rather than `some 0`; the exception for position 0 exists only when 0 is not
the last index, as the second conjunct shows for N = 2. -/
theorem resolve_single_keyframe_clip_yields_none :
    (binary_search_by [0] 0 = Except.ok 0 ∧ resolveFrameIndex [0] 0 = none)
    ∧ (binary_search_by [0, 1] 0 = Except.ok 0 ∧ resolveFrameIndex [0, 1] 0 = some 0) :=
  ⟨⟨rfl, by decide⟩, ⟨rfl, by decide⟩⟩

/-- C2 counter-evidence: for seek time strictly greater than every timestamp
the binary search yields insertion point N (here 2), the dead guard
`Err(n) if n > len` does not fire because an insertion point never exceeds
the length, and the final arm returns the last frame `some (N - 1)` instead
of `none`. -/
theorem resolve_past_end_yields_last_frame :
    binary_search_by [0, 1] 2 = Except.error 2
    ∧ resolveFrameIndex [0, 1] 2 = some 1 :=
  ⟨rfl, by decide⟩

/-- C6 counter-evidence: seek_to stores the requested value without clamping,
so a seek to 2.0 on a cursor whose clip duration is 1.0 leaves seek_time at
2.0, outside the documented range [0, clip_duration]. -/
theorem seek_to_stores_unclamped_value :
    (AnimationPlayer2D.default.seek_to 2).seek_time = 2
    ∧ ¬ (AnimationPlayer2D.default.seek_to 2).seek_time ≤ 1 :=
  ⟨rfl, by decide⟩

/-- C7 evidence: the first three validation checks of AnimationClip2D::new
produce their typed errors, and an event key strictly greater than N is
rejected with InvalidFrame, but an event key equal to N (one past the last
valid frame index N - 1) is accepted because the guard compares with
`> keyframes_len` instead of `>= keyframes_len`. -/
theorem clip_new_validation_behaviour :
    AnimationClip2D.new (some [0, 1]) (Keyframes.KeyframesVec [5]) 1 none
        = Except.error (AnimationClip2DError.SizeMismatch 2 1)
    ∧ AnimationClip2D.new (some []) (Keyframes.KeyframesVec []) 1 none
        = Except.error AnimationClip2DError.Empty
    ∧ AnimationClip2D.new (some [2]) (Keyframes.KeyframesVec [5]) 1 none
        = Except.error (AnimationClip2DError.InsufficientDuration 2 1)
    ∧ AnimationClip2D.new (some [0]) (Keyframes.KeyframesVec [5]) 1 (some [(2, [7])])
        = Except.error (AnimationClip2DError.InvalidFrame 2 1)
    ∧ AnimationClip2D.new (some [0]) (Keyframes.KeyframesVec [5]) 1 (some [(1, [7])])
        = Except.ok ⟨[0], Keyframes.KeyframesVec [5], 1, [(1, [7])]⟩ :=
  ⟨rfl, rfl, rfl, rfl, rfl⟩

/-- C8 counter-evidence: a clip with duration 0 and keyframe_timestamps [0.0]
passes every validation check of AnimationClip2D::new and is constructed
successfully, so a clip duration of 0 is in fact constructible. -/
theorem clip_new_accepts_zero_duration :
    AnimationClip2D.new (some [0]) (Keyframes.KeyframesVec [5]) 0 none
        = Except.ok ⟨[0], Keyframes.KeyframesVec [5], 0, []⟩
    ∧ (AnimationClip2D.new (some [0]) (Keyframes.KeyframesVec [5]) 0 none).toOption.map
        AnimationClip2D.duration = some 0 :=
  ⟨rfl, rfl⟩

/-- C9: event collection for an instance emits exactly the payload list bound
to the current frame, in order and with the target set, precisely when the
stored current frame differs from the previous frame, and emits nothing when
they are equal; threading the per-tick frame bookkeeping over the resolved
frames 0, 1, 2, 3 with a payload bound to frame 2 therefore emits that payload
exactly once, on the tick on which the frame becomes 2. -/
theorem collect_events_fires_on_transition {α : Type} (setTarget : α → ℕ → α)
    (entity : ℕ) (cache : List (ℕ × List (ℕ × List α))) (player : AnimationPlayer2D)
    (event_map : List (ℕ × List α))
    (hc : cache.lookup player.animation.animation_clip = some event_map) :
    (player.animation.last_frame ≠ player.animation.frame →
      collect_events setTarget entity cache player
        = ((event_map.lookup player.frame).getD []).map (fun e => setTarget e entity))
    ∧ (player.animation.last_frame = player.animation.frame →
      collect_events setTarget entity cache player = [])
    ∧ (∀ e : α,
        emissionsAlong setTarget entity [(0, [(2, [e])])]
            AnimationPlayer2D.default [some 0, some 1, some 2, some 3]
          = [[], [], [setTarget e entity], []]) := by
  unfold collect_events
  rw [hc]
  dsimp only
  refine ⟨fun hne => ?_, fun heq => ?_, fun e => rfl⟩
  · rw [if_pos hne]
    cases h2 : event_map.lookup player.frame <;> simp [h2]
  · rw [if_neg (not_not_intro heq)]

theorem collect_events_fires_on_transition_witness :
    ([(5, [(0, [10])])] : List (ℕ × List (ℕ × List ℕ))).lookup
        ({ paused := false, animation := { PlayingAnimation2D.default with
            animation_clip := 5, last_frame := some 1, frame := some 0 } }
          : AnimationPlayer2D).animation.animation_clip = some [(0, [10])]
    ∧ collect_events (fun x n => x + n) 3 [(5, [(0, [10])])]
        { paused := false, animation := { PlayingAnimation2D.default with
            animation_clip := 5, last_frame := some 1, frame := some 0 } }
        = [13] := by
  refine ⟨rfl, ?_⟩
  have h := (collect_events_fires_on_transition (fun x n => x + n) 3
      [(5, [(0, [10])])]
      { paused := false, animation := { PlayingAnimation2D.default with
          animation_clip := 5, last_frame := some 1, frame := some 0 } }
      [(0, [10])] rfl).1 (by decide)
  rw [h]
  decide

/-- C10: the public frame accessor returns 0 whenever the internal frame state
is none, and event collection for a player whose internal frame is none but
differs from last_frame therefore looks up the events bound to frame 0. -/
theorem frame_accessor_defaults_to_zero (p : AnimationPlayer2D)
    (hf : p.animation.frame = none) :
    p.frame = 0
    ∧ ∀ (α : Type) (setTarget : α → ℕ → α) (entity : ℕ)
        (cache : List (ℕ × List (ℕ × List α))) (event_map : List (ℕ × List α)),
        cache.lookup p.animation.animation_clip = some event_map →
        p.animation.last_frame ≠ none →
        collect_events setTarget entity cache p
          = ((event_map.lookup 0).getD []).map (fun e => setTarget e entity) := by
  have hfr : p.frame = 0 := by
    unfold AnimationPlayer2D.frame
    rw [hf]
    rfl
  refine ⟨hfr, fun α setTarget entity cache event_map hc hlast => ?_⟩
  unfold collect_events
  rw [hc]
  dsimp only
  rw [if_pos (by rw [hf]; exact hlast), hfr]
  cases h2 : event_map.lookup 0 <;> simp [h2]

theorem frame_accessor_defaults_to_zero_witness :
    ({ paused := false, animation := { PlayingAnimation2D.default with
        last_frame := some 2 } } : AnimationPlayer2D).animation.frame = none
    ∧ ({ paused := false, animation := { PlayingAnimation2D.default with
        last_frame := some 2 } } : AnimationPlayer2D).frame = 0
    ∧ collect_events (fun x n => x * n) 6 [(0, [(0, [4])])]
        { paused := false, animation := { PlayingAnimation2D.default with
            last_frame := some 2 } }
        = [24] := by
  refine ⟨rfl,
    (frame_accessor_defaults_to_zero _ rfl).1, ?_⟩
  have h := (frame_accessor_defaults_to_zero
      { paused := false, animation := { PlayingAnimation2D.default with
          last_frame := some 2 } } rfl).2
      ℕ (fun x n => x * n) 6 [(0, [(0, [4])])] [(0, [4])] rfl (by decide)
  rw [h]
  decide

theorem ratTrunc_eq_floor_of_nonneg (q : ℚ) (h : 0 ≤ q) : ratTrunc q = ⌊q⌋ := by
  unfold ratTrunc
  rw [Int.tdiv_eq_ediv (Rat.num_nonneg.mpr h) (Int.ofNat_nonneg q.den)]
  exact ratFloor_eq_floor q

theorem rustRem_eq_fract_mul (x d : ℚ) (hx : 0 ≤ x) (hd : 0 < d) :
    rustRem x d = d * Int.fract (x / d) := by
  unfold rustRem
  rw [ratTrunc_eq_floor_of_nonneg (x / d) (div_nonneg hx hd.le), Int.fract]
  field_simp

theorem rustRem_nonneg (x d : ℚ) (hx : 0 ≤ x) (hd : 0 < d) : 0 ≤ rustRem x d := by
  rw [rustRem_eq_fract_mul x d hx hd]
  exact mul_nonneg hd.le (Int.fract_nonneg _)

theorem rustRem_lt (x d : ℚ) (hx : 0 ≤ x) (hd : 0 < d) : rustRem x d < d := by
  rw [rustRem_eq_fract_mul x d hx hd]
  calc d * Int.fract (x / d) < d * 1 :=
        (mul_lt_mul_left hd).mpr (Int.fract_lt_one _)
    _ = d := mul_one d

/-- Range preservation of the cursor update: for a positive clip duration,
one update call starting from a seek time inside [0, clip_duration] ends with
a seek time inside [0, clip_duration] again, for every delta and speed. The
unclamped `seek_to` shown in `seek_to_stores_unclamped_value` is the only
cursor operation that can leave this range. -/
theorem update_seek_time_mem_range (a : PlayingAnimation2D) (delta d : ℚ)
    (hd : 0 < d) (h0 : 0 ≤ a.seek_time) (h1 : a.seek_time ≤ d) :
    0 ≤ (a.update delta d).seek_time ∧ (a.update delta d).seek_time ≤ d := by
  unfold PlayingAnimation2D.update
  by_cases hf : a.finished
  · rw [if_pos (by rw [finished_set_ctu]; exact hf)]
    exact ⟨h0, h1⟩
  · rw [if_neg (by rw [finished_set_ctu]; exact hf)]
    simp only
    by_cases hge : a.seek_time + delta * a.speed ≥ d
    · have habs : ratAbs (a.seek_time + delta * a.speed)
          = a.seek_time + delta * a.speed := by
        unfold ratAbs
        rw [if_neg (not_lt.mpr (le_trans hd.le hge))]
      rw [if_pos hge]
      have hrem0 := rustRem_nonneg (ratAbs (a.seek_time + delta * a.speed)) d
        (by rw [habs]; exact le_trans hd.le hge) hd
      have hrem1 := rustRem_lt (ratAbs (a.seek_time + delta * a.speed)) d
        (by rw [habs]; exact le_trans hd.le hge) hd
      constructor <;>
        · simp only [apply_ite PlayingAnimation2D.seek_time,
            if_neg (not_lt.mpr (le_trans hd.le hge))]
          split <;> linarith
    · rw [if_neg hge]
      by_cases hlt : a.seek_time + delta * a.speed < 0
      · have habs : ratAbs (a.seek_time + delta * a.speed)
            = -(a.seek_time + delta * a.speed) := by
          unfold ratAbs
          rw [if_pos hlt]
        rw [if_pos hlt]
        have hrem0 := rustRem_nonneg (ratAbs (a.seek_time + delta * a.speed)) d
          (by rw [habs]; linarith) hd
        have hrem1 := rustRem_lt (ratAbs (a.seek_time + delta * a.speed)) d
          (by rw [habs]; linarith) hd
        constructor <;>
          · simp only [apply_ite PlayingAnimation2D.seek_time, if_pos hlt]
            split <;> linarith
      · rw [if_neg hlt]
        constructor <;>
          · simp only [apply_ite PlayingAnimation2D.seek_time, if_neg hlt]
            split <;> linarith
